import Mathlib

/-!
Shallow embedding of src/cmd.rs from the ha-utils repository.

The file models the two public functions of the crate, exec and get_pwd,
over an explicit environment abstracting the OS collaborators: the
executable search mechanism (the which crate), the filesystem metadata
queries (Path::exists, Path::is_dir), the process-creation API
(Command::output, recorded as a spawn log so that absence of a spawn is
provable), and the current-directory query (std::env::current_dir).
A panic is modeled as the absence of a returned value (Option.none).
-/

/-- Exit status of a finished child process (Rust std::process::ExitStatus):
an optional exit code, none when the child was terminated by a signal. -/
structure ExitStatus where
  code : Option Int
  deriving DecidableEq, Repr

/-- Captured result of a completed child process (Rust std::process::Output):
exit status plus raw stdout and stderr bytes. -/
structure Output where
  status : ExitStatus
  stdout : List Nat
  stderr : List Nat
  deriving DecidableEq, Repr

/-- The error kinds of std::io::ErrorKind that this embedding needs. -/
inductive ErrorKind where
  | notFound
  | permissionDenied
  | other
  deriving DecidableEq, Repr

/-- Embedding of std::io::Error as built by Error::new(kind, msg). -/
structure IoError where
  kind : ErrorKind
  msg : String
  deriving DecidableEq, Repr

/-- One process-spawn request: the program invoked, its argument list, and
the working directory set on the child (Command::new + args + current_dir). -/
structure SpawnCall where
  program : String
  args : List String
  cwd : String
  deriving DecidableEq, Repr

/-- The host environment the crate runs against: the executable search
mechanism, filesystem metadata queries, the compile-time OS branch, the
process-creation API, and the current-directory query. Paths are strings. -/
structure Env where
  whichFound : String → Bool
  pathExists : String → Bool
  isDir : String → Bool
  isWindows : Bool
  spawn : SpawnCall → Except IoError Output
  currentDir : Except String String

/-- Embedding of Rust str::split(' ') on the character list: splits at every
space character, yielding the (possibly empty) segments between them. On the
empty list it yields one empty segment, exactly as the Rust iterator does. -/
def splitChar : List Char → List (List Char)
  | [] => [[]]
  | c :: rest =>
    let s := splitChar rest
    if c = ' ' then [] :: s else (c :: s.headI) :: s.tail

/-- Rust cmd.split(' ') lifted to strings. -/
def rustSplit (s : String) : List String :=
  (splitChar s.data).map String.mk

/-- The executable token exec looks up: cmd.split(' ').next().unwrap().
The unwrap is modeled by getD; splitChar_ne_nil shows the default is dead. -/
def firstToken (s : String) : String :=
  ((rustSplit s).head?).getD ""

/-- Embedding of exec from src/cmd.rs. The first component is the returned
Result; the second records every spawn the call performed, so that the claim
that no child process is spawned on a validation failure is expressible. -/
def exec (env : Env) (cmd : String) (cwd : String) :
    Except IoError Output × List SpawnCall :=
  if env.whichFound (firstToken cmd) = false then
    (Except.error ⟨ErrorKind.notFound, "Could not find specified command: " ++ cmd⟩, [])
  else if env.pathExists cwd = false then
    (Except.error ⟨ErrorKind.other, "Specified path is invalid!"⟩, [])
  else if env.isDir cwd = false then
    (Except.error ⟨ErrorKind.other, "Specified path is not a directory"⟩, [])
  else
    let call : SpawnCall :=
      if env.isWindows then ⟨"cmd", ["/C", cmd], cwd⟩
      else ⟨"sh", ["-c", cmd], cwd⟩
    (env.spawn call, [call])

/-- Embedding of get_pwd from src/cmd.rs: the current-directory query runs
first and panics (none) on failure; only then is the argument inspected. -/
def get_pwd (env : Env) (dir : Option String) : Option String :=
  match env.currentDir with
  | Except.error _ => none
  | Except.ok pwd =>
    some (match dir with
      | some v => v
      | none => pwd)

/-- Whether a result is the InvalidWorkingDirectory failure of the spec:
kind Other with one of the two working-directory messages. -/
def execResultIsInvalidWD : Except IoError Output → Bool
  | Except.error e =>
    decide (e.kind = ErrorKind.other) &&
      (decide (e.msg = "Specified path is invalid!") ||
        decide (e.msg = "Specified path is not a directory"))
  | Except.ok _ => false

theorem splitChar_ne_nil (l : List Char) : splitChar l ≠ [] := by
  cases l with
  | nil => simp [splitChar]
  | cons c rest =>
    simp only [splitChar]
    split <;> simp

theorem splitChar_headI (l : List Char) :
    (splitChar l).headI = l.takeWhile (fun c => c != ' ') := by
  induction l with
  | nil => rfl
  | cons c rest ih =>
    by_cases h : c = ' '
    · subst h
      simp [splitChar, List.takeWhile_cons]
    · simp [splitChar, h, List.takeWhile_cons, ih]

theorem takeWhile_of_all {p : Char → Bool} (l : List Char) (h : l.all p = true) :
    l.takeWhile p = l := by
  induction l with
  | nil => rfl
  | cons c rest ih =>
    simp only [List.all_cons, Bool.and_eq_true] at h
    simp [List.takeWhile_cons, h.1, ih h.2]

theorem firstToken_eq_takeWhile (s : String) :
    firstToken s = String.mk (s.data.takeWhile (fun c => c != ' ')) := by
  unfold firstToken rustSplit
  cases h : splitChar s.data with
  | nil => exact absurd h (splitChar_ne_nil s.data)
  | cons t ts =>
    have ht : t = s.data.takeWhile (fun c => c != ' ') := by
      have hh := splitChar_headI s.data
      rw [h] at hh
      simpa using hh
    simp [h, ht]

/-- A Unix-like host where only echo is on the search path, /tmp is an
existing directory, spawning succeeds with exit code 0, and the
current-directory query succeeds. -/
def envValid : Env :=
  ⟨fun s => s == "echo", fun p => p == "/tmp", fun p => p == "/tmp", false,
    fun _ => Except.ok ⟨⟨some 0⟩, [104, 101, 108, 108, 111, 10], []⟩,
    Except.ok "/home/user"⟩

/-- A Unix-like host where no executable is found and no path exists. -/
def envMissingCmd : Env :=
  ⟨fun _ => false, fun _ => false, fun _ => false, false,
    fun _ => Except.ok ⟨⟨some 0⟩, [], []⟩, Except.ok "/"⟩

/-- A Unix-like host where every executable is found, /tmp/notes.txt exists
as a regular file and /tmp as a directory; spawning succeeds. -/
def envFileDir : Env :=
  ⟨fun _ => true, fun p => p == "/tmp/notes.txt" || p == "/tmp", fun p => p == "/tmp",
    false, fun _ => Except.ok ⟨⟨some 0⟩, [], []⟩, Except.ok "/home/user"⟩

/-- A Unix-like host where all validation passes and the spawned child
exits with the nonzero code 1 and some stderr bytes. -/
def envNonzero : Env :=
  ⟨fun _ => true, fun _ => true, fun _ => true, false,
    fun _ => Except.ok ⟨⟨some 1⟩, [], [101, 114, 114, 10]⟩, Except.ok "/home/user"⟩

/-- A Windows-family host where all validation passes and spawning succeeds. -/
def envWin : Env :=
  ⟨fun _ => true, fun _ => true, fun _ => true, true,
    fun _ => Except.ok ⟨⟨some 0⟩, [], []⟩, Except.ok "C:\\Users\\u"⟩

/-- A host whose current-directory query fails, as when the process's
working directory was deleted while it runs. -/
def envCwdGone : Env :=
  ⟨fun _ => true, fun _ => true, fun _ => true, false,
    fun _ => Except.ok ⟨⟨some 0⟩, [], []⟩,
    Except.error "No such file or directory (os error 2)"⟩

/-- C1: when the executable token of the command is not found by the host's
search mechanism, exec returns the NotFound error carrying the original
command string and records no spawn, for every working directory. -/
theorem exec_command_not_found (env : Env) (cmd cwd : String)
    (h : env.whichFound (firstToken cmd) = false) :
    exec env cmd cwd =
      (Except.error ⟨ErrorKind.notFound, "Could not find specified command: " ++ cmd⟩, []) := by
  simp [exec, h]

theorem exec_command_not_found_witness :
    exec envMissingCmd "ghost" "/tmp" =
      (Except.error ⟨ErrorKind.notFound, "Could not find specified command: " ++ "ghost"⟩, []) :=
  exec_command_not_found envMissingCmd "ghost" "/tmp" (by decide)

/-- C2 counterexample: a nonexistent working directory together with a
command whose token is not found yields the NotFound error, not the
InvalidWorkingDirectory one, because the which check runs first. -/
theorem exec_nonexistent_dir_counterexample :
    envMissingCmd.pathExists "/does/not/exist" = false ∧
    execResultIsInvalidWD (exec envMissingCmd "ghost" "/does/not/exist").1 = false ∧
    (exec envMissingCmd "ghost" "/does/not/exist").1 =
      Except.error ⟨ErrorKind.notFound, "Could not find specified command: " ++ "ghost"⟩ := by
  refine ⟨rfl, ?_, ?_⟩ <;> rfl

/-- C2 (amended): for every command whose executable token is found, a
working directory that does not exist makes exec return the
InvalidWorkingDirectory error (kind Other, path-is-invalid message) with no
spawn recorded. -/
theorem exec_nonexistent_dir (env : Env) (cmd cwd : String)
    (hw : env.whichFound (firstToken cmd) = true)
    (he : env.pathExists cwd = false) :
    exec env cmd cwd =
      (Except.error ⟨ErrorKind.other, "Specified path is invalid!"⟩, []) := by
  simp [exec, hw, he]

theorem exec_nonexistent_dir_witness :
    exec envFileDir "echo hi" "/gone" =
      (Except.error ⟨ErrorKind.other, "Specified path is invalid!"⟩, []) :=
  exec_nonexistent_dir envFileDir "echo hi" "/gone" (by decide) (by decide)

/-- C3: when the token is found, the directory exists and is a directory,
and the OS spawn succeeds with some output, exec returns that output as
success, whatever its exit status, and never an error value. -/
theorem exec_spawn_ok (env : Env) (cmd cwd : String) (out : Output)
    (hw : env.whichFound (firstToken cmd) = true)
    (he : env.pathExists cwd = true)
    (hd : env.isDir cwd = true)
    (hs : env.spawn
      (if env.isWindows then ⟨"cmd", ["/C", cmd], cwd⟩
        else ⟨"sh", ["-c", cmd], cwd⟩) = Except.ok out) :
    (exec env cmd cwd).1 = Except.ok out ∧
    ∀ e : IoError, (exec env cmd cwd).1 ≠ Except.error e := by
  have h1 : (exec env cmd cwd).1 = Except.ok out := by
    simp [exec, hw, he, hd]
    exact hs
  exact ⟨h1, fun e hcontra => by rw [h1] at hcontra; exact Except.noConfusion hcontra⟩

theorem exec_spawn_ok_witness :
    (exec envNonzero "false" "/tmp").1 = Except.ok ⟨⟨some 1⟩, [], [101, 114, 114, 10]⟩ :=
  (exec_spawn_ok envNonzero "false" "/tmp" ⟨⟨some 1⟩, [], [101, 114, 114, 10]⟩
    (by decide) (by decide) (by decide) rfl).1

/-- C4: both working-directory validation failures are reported with the
same error kind Other and distinguished only by their messages, and neither
records a spawn; in particular a path that exists but is not a directory
yields the not-a-directory message. -/
theorem exec_invalid_working_directory (env : Env) (cmd cwd : String)
    (hw : env.whichFound (firstToken cmd) = true) :
    (env.pathExists cwd = false →
      exec env cmd cwd =
        (Except.error ⟨ErrorKind.other, "Specified path is invalid!"⟩, [])) ∧
    (env.pathExists cwd = true → env.isDir cwd = false →
      exec env cmd cwd =
        (Except.error ⟨ErrorKind.other, "Specified path is not a directory"⟩, [])) := by
  constructor
  · intro he
    simp [exec, hw, he]
  · intro he hd
    simp [exec, hw, he, hd]

theorem exec_invalid_working_directory_witness :
    exec envFileDir "echo hi" "/tmp/notes.txt" =
      (Except.error ⟨ErrorKind.other, "Specified path is not a directory"⟩, []) :=
  (exec_invalid_working_directory envFileDir "echo hi" "/tmp/notes.txt" (by decide)).2
    (by decide) (by decide)

/-- C5: the executable token exec looks up is exactly the substring before
the first space, the whole string when it has no space, and exec's NotFound
branch is governed by the search lookup at exactly that substring. -/
theorem exec_lookup_token (s : String) :
    firstToken s = String.mk (s.data.takeWhile (fun c => c != ' ')) ∧
    (s.data.all (fun c => c != ' ') = true → firstToken s = s) ∧
    (∀ (env : Env) (cwd : String),
      env.whichFound (String.mk (s.data.takeWhile (fun c => c != ' '))) = false →
      (exec env s cwd).1 =
        Except.error ⟨ErrorKind.notFound, "Could not find specified command: " ++ s⟩) := by
  refine ⟨firstToken_eq_takeWhile s, ?_, ?_⟩
  · intro hall
    rw [firstToken_eq_takeWhile s, takeWhile_of_all s.data hall]
  · intro env cwd hw
    rw [← firstToken_eq_takeWhile s] at hw
    simp [exec, hw]

theorem exec_lookup_token_witness :
    firstToken "echo hello" = "echo" ∧
    firstToken "hyprctl" = "hyprctl" ∧
    (exec envMissingCmd "run me" "/tmp").1 =
      Except.error ⟨ErrorKind.notFound, "Could not find specified command: " ++ "run me"⟩ :=
  ⟨(exec_lookup_token "echo hello").1.trans (by decide),
    (exec_lookup_token "hyprctl").2.1 (by decide),
    (exec_lookup_token "run me").2.2 envMissingCmd "/tmp" (by decide)⟩

/-- C6: when all validation passes, exec records exactly one spawn; on
Windows-family hosts it is cmd with /C and the full command string as one
argument, otherwise sh with -c and the full command string as one argument,
and in both branches the working directory of the child is the given one. -/
theorem exec_spawn_shape (env : Env) (cmd cwd : String)
    (hw : env.whichFound (firstToken cmd) = true)
    (he : env.pathExists cwd = true)
    (hd : env.isDir cwd = true) :
    (env.isWindows = true →
      (exec env cmd cwd).2 = [⟨"cmd", ["/C", cmd], cwd⟩]) ∧
    (env.isWindows = false →
      (exec env cmd cwd).2 = [⟨"sh", ["-c", cmd], cwd⟩]) := by
  constructor <;> intro hwin <;> simp [exec, hw, he, hd, hwin]

theorem exec_spawn_shape_witness :
    (exec envWin "dir /b" "C:\\tmp").2 = [⟨"cmd", ["/C", "dir /b"], "C:\\tmp"⟩] ∧
    (exec envNonzero "ls -la | wc -l" "/tmp").2 =
      [⟨"sh", ["-c", "ls -la | wc -l"], "/tmp"⟩] :=
  ⟨(exec_spawn_shape envWin "dir /b" "C:\\tmp" (by decide) (by decide) (by decide)).1 rfl,
    (exec_spawn_shape envNonzero "ls -la | wc -l" "/tmp"
      (by decide) (by decide) (by decide)).2 rfl⟩

/-- C7: whenever the current-directory query succeeds, get_pwd with an
explicit directory returns exactly that directory, unchanged, with no
normalization and no existence check on it. -/
theorem get_pwd_some_id (env : Env) (p d : String)
    (h : env.currentDir = Except.ok d) :
    get_pwd env (some p) = some p := by
  simp [get_pwd, h]

theorem get_pwd_some_id_witness :
    get_pwd envValid (some "/no/such/dir") = some "/no/such/dir" :=
  get_pwd_some_id envValid "/no/such/dir" "/home/user" rfl

/-- C8: get_pwd with no explicit directory returns exactly the value the OS
current-directory query yields, and when that query fails it panics (no
value is returned) rather than producing a sentinel. -/
theorem get_pwd_none_current (env : Env) :
    (∀ d, env.currentDir = Except.ok d → get_pwd env none = some d) ∧
    (∀ e, env.currentDir = Except.error e → get_pwd env none = none) := by
  constructor
  · intro d h
    simp [get_pwd, h]
  · intro e h
    simp [get_pwd, h]

theorem get_pwd_none_current_witness :
    get_pwd envValid none = some "/home/user" ∧ get_pwd envCwdGone none = none :=
  ⟨(get_pwd_none_current envValid).1 "/home/user" rfl,
    (get_pwd_none_current envCwdGone).2 "No such file or directory (os error 2)" rfl⟩

/-- C9: the current-directory query runs before the argument is inspected,
so get_pwd with an explicit directory also panics (no value is returned)
when that query fails, although its result would have been discarded. -/
theorem get_pwd_some_panics (env : Env) (p e : String)
    (h : env.currentDir = Except.error e) :
    get_pwd env (some p) = none := by
  simp [get_pwd, h]

theorem get_pwd_some_panics_witness :
    get_pwd envCwdGone (some "/tmp") = none :=
  get_pwd_some_panics envCwdGone "/tmp" "No such file or directory (os error 2)" rfl

/-- C10: splitting any command string on spaces yields at least one token,
so the unwrap behind firstToken never panics, the empty string and strings
starting with a space included; when the host search cannot find the
(possibly empty) token, exec returns the NotFound error instead of crashing. -/
theorem exec_token_total (s : String) (env : Env) (cwd : String) :
    (rustSplit s).head?.isSome = true ∧
    (env.whichFound (firstToken s) = false →
      (exec env s cwd).1 =
        Except.error ⟨ErrorKind.notFound, "Could not find specified command: " ++ s⟩) := by
  constructor
  · unfold rustSplit
    cases h : splitChar s.data with
    | nil => exact absurd h (splitChar_ne_nil s.data)
    | cons t ts => simp [h]
  · intro hw
    simp [exec, hw]

theorem exec_token_total_witness :
    (rustSplit "").head?.isSome = true ∧
    (rustSplit " leading").head?.isSome = true ∧
    (exec envMissingCmd "" "/tmp").1 =
      Except.error ⟨ErrorKind.notFound, "Could not find specified command: " ++ ""⟩ :=
  ⟨(exec_token_total "" envMissingCmd "/tmp").1,
    (exec_token_total " leading" envMissingCmd "/tmp").1,
    (exec_token_total "" envMissingCmd "/tmp").2 (by decide)⟩
